import Mathlib

/-!
Shallow embedding of the `vst-rs-example-egui` plugin (`src/lib.rs`).

The plugin state is a `u8` held-note counter (`Whisper.notes`, modelled as a
natural number with arithmetic reduced modulo 2^8) together with a shared
amplitude parameter (`WhisperParameters.amplitude`).  The `AtomicFloat`
parameter store writes and reads the stored value verbatim (no arithmetic is
performed on it), so it is modelled over `ℚ`.  The per-sample random draws of
`rand::random::<f32>()` (uniform in `[0,1)`) are modelled by an explicit
stream `rng : ℕ → ℚ` supplied to `process`.  The egui editor session
(`eframe::WgpuIdle`) is an external collaborator; it is modelled by a session
identifier, and the externally visible calls made on it (create, close, pump)
are recorded in an effect trace.
-/

namespace VstEgui

/-- `WhisperParameters` (src/lib.rs:19-22): a single `AtomicFloat` amplitude
slot.  `AtomicFloat::get`/`set` return/store the value verbatim, so the slot
is modelled as a rational. -/
structure WhisperParameters where
  amplitude : ℚ
deriving DecidableEq

/-- `Default for WhisperParameters` (src/lib.rs:24-30): amplitude starts
at 0.5. -/
def WhisperParameters.default : WhisperParameters := ⟨1/2⟩

/-- `Whisper` (src/lib.rs:12-17): the held-note counter (`notes: u8`) and the
shared parameters.  The `u8` is modelled as a `Nat` whose updates are taken
modulo 256. -/
structure Whisper where
  notes : ℕ
  params : WhisperParameters
deriving DecidableEq

/-- `Whisper::new` (src/lib.rs:134-151): just `Self::default()`, i.e. a zero
counter and default parameters. -/
def Whisper.new : Whisper := ⟨0, WhisperParameters.default⟩

/-- A VST event as seen by `process_events`: either a MIDI event carrying its
3 data bytes, or some other event kind (ignored by the code). -/
inductive VstEvent where
  | midi (d0 d1 d2 : ℕ)
  | other
deriving DecidableEq

/-- One iteration of the event loop in `Whisper::process_events`
(src/lib.rs:62-87): status byte 144 increments `notes`, 128 decrements it
(both with the wrapping arithmetic of `u8` in release builds), everything
else is ignored. -/
def stepEvent (notes : ℕ) (e : VstEvent) : ℕ :=
  match e with
  | .midi d0 _ _ =>
      if d0 = 144 then (notes + 1) % 256
      else if d0 = 128 then (notes + 255) % 256
      else notes
  | .other => notes

/-- `Whisper::process_events` (src/lib.rs:62-87): fold `stepEvent` over the
event list. -/
def Whisper.processEvents (w : Whisper) (events : List VstEvent) : Whisper :=
  { w with notes := events.foldl stepEvent w.notes }

/-- The activity test used by `process` (src/lib.rs:99): the plugin is active
iff the note counter is nonzero. -/
def Whisper.isActive (w : Whisper) : Bool := w.notes != 0

/-- `Whisper::process` (src/lib.rs:89-120): returns the output buffer, as a
list of `numChannels` channels of `numSamples` samples.  If no note is held
every sample is set to `0.0`; otherwise each sample is
`amplitude * (r - 0.5) * 2` for an independent uniform draw `r`, modelled by
the stream `rng` consumed in iteration order. -/
def Whisper.process (w : Whisper) (numChannels numSamples : ℕ)
    (rng : ℕ → ℚ) : List (List ℚ) :=
  if w.notes = 0 then
    List.replicate numChannels (List.replicate numSamples 0)
  else
    (List.range numChannels).map fun ch =>
      (List.range numSamples).map fun s =>
        w.params.amplitude * (rng (ch * numSamples + s) - 1/2) * 2

/-- `PluginParameters::get_parameter` (src/lib.rs:163-168). -/
def WhisperParameters.getParameter (p : WhisperParameters) (index : ℤ) : ℚ :=
  if index = 0 then p.amplitude else 0

/-- `PluginParameters::set_parameter` (src/lib.rs:171-177): stores `val`
verbatim into the amplitude slot when `index = 0`, otherwise does nothing. -/
def WhisperParameters.setParameter (p : WhisperParameters) (index : ℤ)
    (val : ℚ) : WhisperParameters :=
  if index = 0 then ⟨val⟩ else p

/-- The decimal digit characters used when rendering numbers. -/
def digitChar (d : ℕ) : Char :=
  if d = 0 then '0' else if d = 1 then '1' else if d = 2 then '2'
  else if d = 3 then '3' else if d = 4 then '4' else if d = 5 then '5'
  else if d = 6 then '6' else if d = 7 then '7' else if d = 8 then '8'
  else '9'

/-- Decimal digits of `n`, most significant first; `fuel` bounds the
recursion (any `fuel > n` is enough). -/
def natDigits : ℕ → ℕ → List Char
  | 0, _ => []
  | fuel + 1, n =>
    if n < 10 then [digitChar n]
    else natDigits fuel (n / 10) ++ [digitChar (n % 10)]

/-- Decimal rendering of a natural number. -/
def natRepr (n : ℕ) : String := String.mk (natDigits (n + 1) n)

/-- Round a nonnegative rational to the nearest natural, ties to even (the
rounding Rust's float formatting applies to the exact value).  For `q ≥ 0`,
`q.num.toNat / q.den` is the floor of `q`. -/
def roundHalfEven (q : ℚ) : ℕ :=
  let fl : ℕ := q.num.toNat / q.den
  let frac : ℚ := q - fl
  if frac < 1/2 then fl
  else if 1/2 < frac then fl + 1
  else if fl % 2 = 0 then fl else fl + 1

/-- Rust's `format!("{:.2}", x)`: the value rounded to two decimal places,
with exactly two fractional digits. -/
def formatTwoDec (q : ℚ) : String :=
  let sign := if q < 0 then "-" else ""
  let n := roundHalfEven (|q| * 100)
  sign ++ natRepr (n / 100) ++ "." ++
    String.mk [digitChar (n / 10 % 10), digitChar (n % 10)]

/-- `PluginParameters::get_parameter_text` (src/lib.rs:181-186):
`format!("{:.2}", amplitude)` for index 0, empty string otherwise. -/
def WhisperParameters.getParameterText (p : WhisperParameters)
    (index : ℤ) : String :=
  if index = 0 then formatTwoDec p.amplitude else ""

/-- `PluginParameters::get_parameter_name` (src/lib.rs:189-195). -/
def WhisperParameters.getParameterName (index : ℤ) : String :=
  if index = 0 then "Amplitude" else ""

/-- A MIDI note-on event (status byte 144) as passed to `process_events`. -/
def noteOn (pitch : ℕ) : VstEvent := VstEvent.midi 144 pitch 100

/-- A MIDI note-off event (status byte 128) as passed to `process_events`. -/
def noteOff (pitch : ℕ) : VstEvent := VstEvent.midi 128 pitch 0

/-- Externally visible calls made on `eframe` GUI sessions, identified by a
session id: window creation (`eframe::idle_wgpu`), teardown
(`WgpuIdle::close`) and one event-loop pump (`WgpuIdle::idle`). -/
inductive GuiEffect where
  | create (id : ℕ)
  | closeSession (id : ℕ)
  | pump (id : ℕ)
deriving DecidableEq

/-- `VstGui` (src/lib.rs:200-203): the editor holds the shared parameters and
an optional GUI session (`gui: Option<WgpuIdle>`), modelled by the session
id.  `nextId` is the id the next created session will get. -/
structure VstGui where
  params : WhisperParameters
  gui : Option ℕ
  nextId : ℕ
deriving DecidableEq

/-- `VstGui::close` (src/lib.rs:206-211): if a session is held, take it out
and call `close()` on it (recorded as a `closeSession` effect); otherwise do
nothing. -/
def VstGui.closeImpl (g : VstGui) : VstGui × List GuiEffect :=
  match g.gui with
  | some id => ({ g with gui := none }, [GuiEffect.closeSession id])
  | none => (g, [])

/-- Result of `Editor::open`: the new editor state, the trace of calls made
on GUI sessions, and the returned boolean. -/
structure OpenResult where
  state : VstGui
  effects : List GuiEffect
  ret : Bool
deriving DecidableEq

/-- `Editor::open` (src/lib.rs:223-241): first `self.close()`, then create a
fresh session via `eframe::idle_wgpu` and store it, then return `true`.  The
external surface creation is modelled by the `canCreate` flag (whether the
host environment could actually create the embedded surface); the source
never inspects any failure signal from `eframe::idle_wgpu` and returns
`true` unconditionally, which is why `canCreate` is unused on the right-hand
side. -/
def VstGui.openE (g : VstGui) (parent : ℤ) (canCreate : Bool) : OpenResult :=
  let r := g.closeImpl
  let id := r.1.nextId
  { state := { r.1 with gui := some id, nextId := id + 1 },
    effects := r.2 ++ [GuiEffect.create id],
    ret := true }

/-- `Editor::idle` (src/lib.rs:243-253): if a session is held, pump it once;
`exitSignal` is the boolean the pump returns (`true` when the GUI
self-terminated), in which case the session is dropped.  With no session
held nothing happens. -/
def VstGui.idleE (g : VstGui) (exitSignal : Bool) : VstGui × List GuiEffect :=
  match g.gui with
  | some id =>
      if exitSignal then ({ g with gui := none }, [GuiEffect.pump id])
      else (g, [GuiEffect.pump id])
  | none => (g, [])

/-- `Editor::close` (src/lib.rs:255-257): delegates to `VstGui::close`. -/
def VstGui.closeE (g : VstGui) : VstGui × List GuiEffect := g.closeImpl

/-- `Editor::is_open` (src/lib.rs:259-261): `self.gui.is_some()`. -/
def VstGui.isOpenE (g : VstGui) : Bool := g.gui.isSome

/-! ## Helper lemmas -/

/-- Folding `n` note-on events adds `n` to the counter, modulo 256. -/
theorem foldl_replicate_noteOn (n : ℕ) : ∀ k : ℕ, k < 256 →
    (List.replicate n (noteOn 60)).foldl stepEvent k = (k + n) % 256 := by
  induction n with
  | zero => intro k hk; simp [Nat.mod_eq_of_lt hk]
  | succ m ih =>
      intro k hk
      rw [List.replicate_succ, List.foldl_cons]
      have hstep : stepEvent k (noteOn 60) = (k + 1) % 256 := by
        simp [stepEvent, noteOn]
      rw [hstep, ih ((k + 1) % 256) (Nat.mod_lt _ (by norm_num))]
      omega

/-- Folding `n` note-off events adds `255 * n` to the counter, modulo 256
(each note-off is a wrapping decrement). -/
theorem foldl_replicate_noteOff (n : ℕ) : ∀ k : ℕ, k < 256 →
    (List.replicate n (noteOff 60)).foldl stepEvent k = (k + 255 * n) % 256 := by
  induction n with
  | zero => intro k hk; simp [Nat.mod_eq_of_lt hk]
  | succ m ih =>
      intro k hk
      rw [List.replicate_succ, List.foldl_cons]
      have hstep : stepEvent k (noteOff 60) = (k + 255) % 256 := by
        simp [stepEvent, noteOff]
      rw [hstep, ih ((k + 255) % 256) (Nat.mod_lt _ (by norm_num))]
      omega

/-- Evaluation of the two-decimal formatting at 1/2. -/
theorem formatTwoDec_half : formatTwoDec (1/2) = "0.50" := by
  have h : |(1:ℚ)/2| * 100 = 50 := by rw [abs_of_nonneg] <;> norm_num
  have h2 : roundHalfEven 50 = 50 := by
    norm_num [roundHalfEven, Rat.num_ofNat, Rat.den_ofNat,
      show Int.toNat 50 = 50 from rfl]
  simp only [formatTwoDec]
  rw [h, h2, if_neg (by norm_num : ¬ ((1:ℚ)/2 < 0))]
  decide

/-! ## Claim theorems -/

/-- C1: for every buffer shape (any channel count and sample count), every
amplitude value and every random stream, if the held-note count is 0 then
`process` produces a buffer of exactly `numChannels` channels of
`numSamples` samples each, with every sample equal to 0. -/
theorem process_silent_when_inactive (w : Whisper) (numChannels numSamples : ℕ)
    (rng : ℕ → ℚ) (h : w.notes = 0) :
    (w.process numChannels numSamples rng).length = numChannels ∧
    ∀ ch ∈ w.process numChannels numSamples rng,
      ch.length = numSamples ∧ ∀ x ∈ ch, x = 0 := by
  refine ⟨?_, ?_⟩
  · simp [Whisper.process, h]
  · intro ch hch
    rw [Whisper.process, if_pos h] at hch
    obtain rfl := List.eq_of_mem_replicate hch
    exact ⟨List.length_replicate _ _, fun x hx => List.eq_of_mem_replicate hx⟩

/-- C1 witness: a concrete inactive instance (amplitude 7/10, 2 channels of
3 samples) renders all zeros. -/
theorem process_silent_when_inactive_witness :
    ((⟨0, ⟨7/10⟩⟩ : Whisper).notes = 0) ∧
    (((⟨0, ⟨7/10⟩⟩ : Whisper).process 2 3 fun _ => 1/3).length = 2 ∧
      ∀ ch ∈ (⟨0, ⟨7/10⟩⟩ : Whisper).process 2 3 fun _ => 1/3,
        ch.length = 3 ∧ ∀ x ∈ ch, x = 0) :=
  ⟨rfl, process_silent_when_inactive ⟨0, ⟨7/10⟩⟩ 2 3 (fun _ => 1/3) rfl⟩

/-- C2: starting from a fresh plugin (count 0), `n` note-on events followed
by `n` note-off events leave the count at 0 and the plugin inactive, for
every `n`; concretely, note-on then note-off returns to inactive, while
note-on, note-on, note-off leaves count 1 and the plugin active. -/
theorem note_count_balanced :
    (∀ n : ℕ,
      (Whisper.new.processEvents
        (List.replicate n (noteOn 60) ++ List.replicate n (noteOff 60))).notes = 0 ∧
      (Whisper.new.processEvents
        (List.replicate n (noteOn 60) ++ List.replicate n (noteOff 60))).isActive
          = false) ∧
    (Whisper.new.processEvents [noteOn 60]).isActive = true ∧
    (Whisper.new.processEvents [noteOn 60, noteOff 60]).isActive = false ∧
    ((Whisper.new.processEvents [noteOn 60, noteOn 60, noteOff 60]).notes = 1 ∧
     (Whisper.new.processEvents [noteOn 60, noteOn 60, noteOff 60]).isActive
       = true) := by
  refine ⟨fun n => ?_, by decide, by decide, by decide, by decide⟩
  have h : (Whisper.new.processEvents
      (List.replicate n (noteOn 60) ++ List.replicate n (noteOff 60))).notes = 0 := by
    show (List.replicate n (noteOn 60) ++
      List.replicate n (noteOff 60)).foldl stepEvent 0 = 0
    rw [List.foldl_append, foldl_replicate_noteOn n 0 (by norm_num),
      foldl_replicate_noteOff n ((0 + n) % 256) (Nat.mod_lt _ (by norm_num))]
    omega
  exact ⟨h, by simp [Whisper.isActive, h]⟩

/-- C3: for every starting parameter state and every `v` in `[0,1]`,
`set_parameter(0, v)` followed by `get_parameter(0)` returns exactly `v`
(the store holds the value verbatim), and `get_parameter_text(0)` then
renders `v` to two decimal places. -/
theorem amplitude_roundtrip (p : WhisperParameters) (v : ℚ)
    (h0 : 0 ≤ v) (h1 : v ≤ 1) :
    (p.setParameter 0 v).getParameter 0 = v ∧
    (p.setParameter 0 v).getParameterText 0 = formatTwoDec v :=
  ⟨rfl, rfl⟩

/-- C3 witness: round-trip at `v = 1` from the default state. -/
theorem amplitude_roundtrip_witness :
    ((0:ℚ) ≤ 1 ∧ (1:ℚ) ≤ 1) ∧
    ((WhisperParameters.default.setParameter 0 1).getParameter 0 = 1 ∧
     (WhisperParameters.default.setParameter 0 1).getParameterText 0
       = formatTwoDec 1) :=
  ⟨⟨zero_le_one, le_refl 1⟩,
    amplitude_roundtrip WhisperParameters.default 1 zero_le_one (le_refl 1)⟩

/-- C4: a note-off event (status byte 128) arriving with the held-note count
at 0 wraps the 8-bit counter around to 255, so the plugin reports active
with no note held. -/
theorem note_off_underflow_wraps :
    (Whisper.new.processEvents [noteOff 60]).notes = 255 ∧
    (Whisper.new.processEvents [noteOff 60]).isActive = true := by
  exact ⟨rfl, rfl⟩

/-- C5: when the held-note count is nonzero and the amplitude is 1, every
sample produced by `process` lies in `[-1, 1)`, given that every random
draw lies in `[0, 1)`; each sample is `amplitude * (r - 1/2) * 2`. -/
theorem active_samples_bounded (w : Whisper) (numChannels numSamples : ℕ)
    (rng : ℕ → ℚ) (h1 : w.notes ≠ 0) (h2 : w.params.amplitude = 1)
    (h3 : ∀ n, 0 ≤ rng n ∧ rng n < 1) :
    ∀ ch ∈ w.process numChannels numSamples rng, ∀ x ∈ ch, -1 ≤ x ∧ x < 1 := by
  intro ch hch x hx
  rw [Whisper.process, if_neg h1] at hch
  simp only [List.mem_map, List.mem_range] at hch
  obtain ⟨c, hc, rfl⟩ := hch
  simp only [List.mem_map, List.mem_range] at hx
  obtain ⟨s, hs, rfl⟩ := hx
  obtain ⟨hr0, hr1⟩ := h3 (c * numSamples + s)
  rw [h2]
  constructor <;> linarith

/-- C5 witness: a concrete active instance with amplitude 1 and the constant
zero random stream has all samples in `[-1, 1)`. -/
theorem active_samples_bounded_witness :
    ((1:ℕ) ≠ 0 ∧ (⟨1, ⟨1⟩⟩ : Whisper).params.amplitude = 1 ∧
      (∀ n : ℕ, (0:ℚ) ≤ (fun _ : ℕ => (0:ℚ)) n ∧ (fun _ : ℕ => (0:ℚ)) n < 1)) ∧
    (∀ ch ∈ (⟨1, ⟨1⟩⟩ : Whisper).process 2 2 (fun _ => 0),
      ∀ x ∈ ch, -1 ≤ x ∧ x < 1) :=
  ⟨⟨by decide, rfl, fun n => ⟨le_refl 0, zero_lt_one⟩⟩,
    active_samples_bounded ⟨1, ⟨1⟩⟩ 2 2 (fun _ => 0) (by decide) rfl
      (fun n => ⟨le_refl 0, zero_lt_one⟩)⟩

/-- C6: editor lifecycle.  For every editor state: `open` then `close`
leaves `is_open()` false; `close` on a closed editor is a no-op, and a
second `close` right after a `close` is a no-op (idempotent); `idle` on a
closed editor is a no-op for every pump signal; `open` on an editor already
holding a session first emits the teardown of that session and ends holding
exactly the single freshly created session; and `is_open()` is true iff a
session exists. -/
theorem editor_lifecycle (g : VstGui) (parent : ℤ) (canCreate : Bool)
    (exitSignal : Bool) (id : ℕ) :
    (VstGui.openE g parent canCreate).state.closeE.1.isOpenE = false ∧
    ({ g with gui := none } : VstGui).closeE = ({ g with gui := none }, []) ∧
    g.closeE.1.closeE = (g.closeE.1, []) ∧
    ({ g with gui := none } : VstGui).idleE exitSignal
      = ({ g with gui := none }, []) ∧
    ((VstGui.openE { g with gui := some id } parent canCreate).effects
        = [GuiEffect.closeSession id, GuiEffect.create g.nextId] ∧
     (VstGui.openE { g with gui := some id } parent canCreate).state.gui
        = some g.nextId) ∧
    (g.isOpenE = g.gui.isSome) := by
  refine ⟨?_, ?_, ?_, ?_, ⟨?_, ?_⟩, rfl⟩ <;>
    cases h : g.gui <;>
      simp [VstGui.openE, VstGui.closeE, VstGui.closeImpl, VstGui.idleE,
        VstGui.isOpenE, h]

/-- C7 counterexample: at a concrete editor state and parent handle where
the external surface creation would fail (`canCreate = false`), `open` does
not return `false` — it returns `true` unconditionally. -/
theorem open_failure_not_reported :
    ¬ ((VstGui.openE ⟨⟨1/2⟩, none, 0⟩ 0 false).ret = false) := by
  decide

/-- C7 amended: `open` returns a boolean, but it is `true` unconditionally
for every state, parent handle and surface-creation outcome; a creation
failure is never reported as `false`. -/
theorem open_always_returns_true (g : VstGui) (parent : ℤ) (canCreate : Bool) :
    (VstGui.openE g parent canCreate).ret = true := rfl

/-- C8: for every parameter index other than 0 and every value,
`get_parameter` returns 0, `set_parameter` leaves the state unchanged, and
`get_parameter_text` and `get_parameter_name` return the empty string. -/
theorem params_other_index_noop (p : WhisperParameters) (i : ℤ) (v : ℚ)
    (h : i ≠ 0) :
    p.getParameter i = 0 ∧ p.setParameter i v = p ∧
    p.getParameterText i = "" ∧ WhisperParameters.getParameterName i = "" := by
  refine ⟨?_, ?_, ?_, ?_⟩ <;>
    simp [WhisperParameters.getParameter, WhisperParameters.setParameter,
      WhisperParameters.getParameterText, WhisperParameters.getParameterName, h]

/-- C8 witness: index 1 is a no-op on the default state. -/
theorem params_other_index_noop_witness :
    ((1:ℤ) ≠ 0) ∧
    (WhisperParameters.default.getParameter 1 = 0 ∧
     WhisperParameters.default.setParameter 1 2 = WhisperParameters.default ∧
     WhisperParameters.default.getParameterText 1 = "" ∧
     WhisperParameters.getParameterName 1 = "") :=
  ⟨by decide, params_other_index_noop WhisperParameters.default 1 2 (by decide)⟩

/-- C9: on a freshly constructed plugin, before any parameter write, the
amplitude is 0.5: `get_parameter(0)` returns 1/2 (not 1), and
`get_parameter_text(0)` returns "0.50". -/
theorem default_amplitude_is_half :
    Whisper.new.params.getParameter 0 = 1/2 ∧
    Whisper.new.params.getParameterText 0 = "0.50" ∧
    Whisper.new.params.getParameter 0 ≠ 1 := by
  refine ⟨rfl, ?_, ?_⟩
  · show formatTwoDec (1/2) = "0.50"
    exact formatTwoDec_half
  · show ¬ ((1:ℚ)/2 = 1)
    norm_num

/-- C10: `set_parameter(0, v)` stores `v` verbatim with no clamping: for
every value `v`, a subsequent `get_parameter(0)` returns exactly `v` — in
particular for the out-of-range values `-1` and `2`. -/
theorem set_parameter_unclamped :
    (∀ (p : WhisperParameters) (v : ℚ),
      (p.setParameter 0 v).getParameter 0 = v) ∧
    (WhisperParameters.default.setParameter 0 (-1)).getParameter 0 = -1 ∧
    (WhisperParameters.default.setParameter 0 2).getParameter 0 = 2 :=
  ⟨fun p v => rfl, rfl, rfl⟩

end VstEgui
